import Mathlib

/-!
Verification of the meme-feed client (infinite scroll, pagination-shape
detection, card rendering with identity dedup, optimistic voting, random-meme
navigation).  The JavaScript source is shallowly embedded: JavaScript values
become the inductive `JVal`, the module-level mutable state becomes explicit
records threaded through pure transition functions, and the asynchronous fetch
continuations become functions parameterised by a `FetchOutcome`.  Definition
names follow the source function names.
-/

namespace MemeFeed

/-- A JavaScript value as the feed client manipulates them: `null`,
`undefined`, booleans, numbers, strings, plain objects and arrays.  All the
numbers the component handles are integers, so numbers are modelled as `Int`
(hence `Number.isFinite` holds of every modelled number). -/
inductive JVal where
  | null
  | undefined
  | bool (b : Bool)
  | num (n : Int)
  | str (s : String)
  | obj (fields : List (String × JVal))
  | arr (elems : List JVal)

mutual

/-- Structural equality on `JVal`.  On primitive values this agrees with the
SameValueZero comparison that `Set.has` / `Map.get` use; objects and arrays
(which JavaScript would compare by reference) never occur as identity keys in
the scenarios considered here. -/
def JVal.beq : JVal → JVal → Bool
  | .null, .null => true
  | .undefined, .undefined => true
  | .bool a, .bool b => a == b
  | .num a, .num b => a == b
  | .str a, .str b => a == b
  | .obj a, .obj b => beqFields a b
  | .arr a, .arr b => beqList a b
  | _, _ => false

def beqFields : List (String × JVal) → List (String × JVal) → Bool
  | [], [] => true
  | (k₁, v₁) :: r₁, (k₂, v₂) :: r₂ => k₁ == k₂ && JVal.beq v₁ v₂ && beqFields r₁ r₂
  | _, _ => false

def beqList : List JVal → List JVal → Bool
  | [], [] => true
  | v₁ :: r₁, v₂ :: r₂ => JVal.beq v₁ v₂ && beqList r₁ r₂
  | _, _ => false

end

mutual

theorem JVal.beq_iff : ∀ a b : JVal, JVal.beq a b = true ↔ a = b
  | .null, b => by cases b <;> simp [JVal.beq]
  | .undefined, b => by cases b <;> simp [JVal.beq]
  | .bool a, b => by cases b <;> simp [JVal.beq]
  | .num a, b => by cases b <;> simp [JVal.beq]
  | .str a, b => by cases b <;> simp [JVal.beq]
  | .obj a, b => by
      cases b <;> simp [JVal.beq]
      exact beqFields_iff a _
  | .arr a, b => by
      cases b <;> simp [JVal.beq]
      exact beqList_iff a _

theorem beqFields_iff : ∀ a b : List (String × JVal), beqFields a b = true ↔ a = b
  | [], b => by cases b <;> simp [beqFields]
  | (k₁, v₁) :: r₁, b => by
      cases b with
      | nil => simp [beqFields]
      | cons h r₂ =>
        cases h with
        | mk k₂ v₂ =>
          simp [beqFields, JVal.beq_iff v₁ v₂, beqFields_iff r₁ r₂, and_assoc]

theorem beqList_iff : ∀ a b : List JVal, beqList a b = true ↔ a = b
  | [], b => by cases b <;> simp [beqList]
  | v₁ :: r₁, b => by
      cases b with
      | nil => simp [beqList]
      | cons v₂ r₂ => simp [beqList, JVal.beq_iff v₁ v₂, beqList_iff r₁ r₂]

end

instance : DecidableEq JVal := fun a b =>
  decidable_of_iff _ (JVal.beq_iff a b)

/-- JavaScript truthiness: `null`, `undefined`, `false`, `0` and `""` are
falsy, every other modelled value is truthy. -/
def JVal.toBool : JVal → Bool
  | .null => false
  | .undefined => false
  | .bool b => b
  | .num n => n != 0
  | .str s => s != ""
  | .obj _ => true
  | .arr _ => true

/-- `v == null` in the loose sense used by `??`: `null` or `undefined`. -/
def JVal.isNullish : JVal → Bool
  | .null => true
  | .undefined => true
  | _ => false

/-- `typeof v === "object"` (true for objects, arrays and `null`). -/
def JVal.typeofObject : JVal → Bool
  | .obj _ => true
  | .arr _ => true
  | .null => true
  | _ => false

/-- `Array.isArray`. -/
def JVal.isArr : JVal → Bool
  | .arr _ => true
  | _ => false

/-- Optional-chained property access `v?.k`: field lookup on objects,
`undefined` on every other value (including `null`/`undefined`, which is what
the source's `?.` produces, and primitives, whose property access yields
`undefined` for the names used here). -/
def JVal.get : JVal → String → JVal
  | .obj fields, k =>
    match fields.find? (fun f => f.1 == k) with
    | some f => f.2
    | none => .undefined
  | _, _ => .undefined

/-- Array index access `v[i]` (with `?.` tolerance): element lookup on
arrays, `undefined` otherwise. -/
def JVal.atIdx : JVal → Nat → JVal
  | .arr es, i => (es.get? i).getD .undefined
  | _, _ => .undefined

/-- `a || b`: `a` if truthy, else `b`. -/
def jsOr (a b : JVal) : JVal := if a.toBool then a else b

/-- `a ?? b`: `a` unless nullish, else `b`. -/
def jsNullish (a b : JVal) : JVal := if a.isNullish then b else a

/-- A chain `a || b || ... || z` (the last value is returned as-is when all
are falsy, exactly as in JavaScript). -/
def jsOrN : List JVal → JVal
  | [] => .undefined
  | [v] => v
  | v :: rest => jsOr v (jsOrN rest)

/-- A chain `a ?? b ?? ... ?? z`. -/
def jsNullishN : List JVal → JVal
  | [] => .undefined
  | [v] => v
  | v :: rest => jsNullish v (jsNullishN rest)

/-- `String.prototype.trim` over the character list (structural, so that the
kernel can evaluate it on literals). -/
def trimJS (s : String) : String :=
  ⟨((s.data.dropWhile Char.isWhitespace).reverse.dropWhile Char.isWhitespace).reverse⟩

/-- Decimal digits of a natural number, most significant first; the first
argument is structural fuel (any bound above the digit count). -/
def natDigits : Nat → Nat → List Char
  | 0, _ => []
  | f + 1, n =>
    if n < 10 then [Char.ofNat (48 + n)]
    else natDigits f (n / 10) ++ [Char.ofNat (48 + n % 10)]

/-- `String(n)` for an integer (kernel-evaluable rendering). -/
def intToStringJS : Int → String
  | .ofNat m => ⟨natDigits (m + 1) m⟩
  | .negSucc m => ⟨'-' :: natDigits (m + 2) (m + 1)⟩

/-- `String.prototype.startsWith` over character lists. -/
def startsWithJS (s pre : String) : Bool :=
  s.data.take pre.data.length == pre.data

mutual

/-- `String(v)` for the modelled values.  Integers print without a decimal
point, which matches `String` on the integral numbers the component uses. -/
def JVal.toStringJS : JVal → String
  | .null => "null"
  | .undefined => "undefined"
  | .bool b => if b then "true" else "false"
  | .num n => intToStringJS n
  | .str s => s
  | .obj _ => "[object Object]"
  | .arr es => arrJoin es

/-- `Array.prototype.toString`: elements joined by commas, with `null` and
`undefined` elements rendered as the empty string. -/
def arrJoin : List JVal → String
  | [] => ""
  | [v] => arrElemStr v
  | v :: rest => arrElemStr v ++ "," ++ arrJoin rest

/-- One array element inside the join: `null`/`undefined` render empty,
every other value renders as its `String(…)` form. -/
def arrElemStr : JVal → String
  | .null => ""
  | .undefined => ""
  | .bool b => if b then "true" else "false"
  | .num n => intToStringJS n
  | .str s => s
  | .obj _ => "[object Object]"
  | .arr es => arrJoin es

end

/-- Digit-prefix accumulator shared by the two numeric string parsers. -/
def digitsToInt (ds : List Char) : Int :=
  ds.foldl (fun a c => a * 10 + ((c.toNat : Int) - 48)) 0

/-- `Number.parseInt(s, 10)`: skip leading whitespace, optional sign, then the
longest prefix of decimal digits; `none` models `NaN` (no digits found). -/
def parseIntJS (s : String) : Option Int :=
  let cs := s.data.dropWhile Char.isWhitespace
  let core : List Char → Option Int := fun t =>
    let ds := t.takeWhile Char.isDigit
    if ds.isEmpty then none else some (digitsToInt ds)
  match cs with
  | '-' :: rest => (core rest).map (fun n => -n)
  | '+' :: rest => core rest
  | rest => core rest

/-- `Number(s)` on the decimal strings the feed handles: the trimmed empty
string is `0`, an optionally signed all-digit string is its value, anything
else is `NaN` (`none`). -/
def strToNumberJS (s : String) : Option Int :=
  let t := trimJS s
  if t = "" then some 0
  else
    let core : List Char → Option Int := fun ds =>
      if ds ≠ [] ∧ ds.all Char.isDigit then some (digitsToInt ds) else none
    match t.data with
    | '-' :: rest => (core rest).map (fun n => -n)
    | '+' :: rest => core rest
    | rest => core rest

/-- `ToNumber` coercion for the right operand of `currentPage < totalPages`:
numbers are themselves, strings parse as above, booleans are 0/1, `null` is 0,
`undefined` is `NaN`; objects and arrays coerce through their string form. -/
def toNumberJS : JVal → Option Int
  | .num n => some n
  | .str s => strToNumberJS s
  | .bool b => some (if b then 1 else 0)
  | .null => some 0
  | .undefined => none
  | .obj fs => strToNumberJS (JVal.toStringJS (.obj fs))
  | .arr es => strToNumberJS (JVal.toStringJS (.arr es))

/-- The comparison `c < v` where `c` is already a number (as guaranteed by the
`typeof` guard in `resolveNextPage`); comparisons involving `NaN` are false. -/
def jsLtNum (c : Int) (v : JVal) : Bool :=
  match toNumberJS v with
  | some t => decide (c < t)
  | none => false

/-! ## Constants and payload resolvers (source lines 106-109, 504-749, 806-960) -/

def PAGE_SIZE : Nat := 12
def FEED_ENDPOINT : String := "/api/memes"
def RANDOM_ENDPOINT : String := "/api/memes/random"

/-- `extractMemes(payload)`: the feed-page item list, tolerating a bare array
or an array under `data`/`memes`/`items`/`results`. -/
def extractMemes (payload : JVal) : List JVal :=
  if !payload.toBool then []
  else match payload with
  | .arr es => es
  | _ =>
    match payload.get "data" with
    | .arr es => es
    | _ =>
      match payload.get "memes" with
      | .arr es => es
      | _ =>
        match payload.get "items" with
        | .arr es => es
        | _ =>
          match payload.get "results" with
          | .arr es => es
          | _ => []

/-- `resolveSingleMeme(payload)`: the single record of a random-meme
response, from a bare array, `meme`, non-array object `data`, array `data`,
`memes`, or `result`. -/
def resolveSingleMeme (payload : JVal) : JVal :=
  if !payload.toBool then .null
  else match payload with
  | .arr es => jsNullish ((es.get? 0).getD .undefined) .null
  | _ =>
    let meme := payload.get "meme"
    if meme.toBool && meme.typeofObject then meme
    else
      let data := payload.get "data"
      if data.toBool && !data.isArr && data.typeofObject then data
      else if data.isArr then jsNullish (data.atIdx 0) .null
      else
        let memes := payload.get "memes"
        if memes.isArr then jsNullish (memes.atIdx 0) .null
        else
          let result := payload.get "result"
          if result.toBool && result.typeofObject then result
          else .null

/-- The `meme.id` tail of `resolveMemeDestination` (source lines 585-588). -/
def resolveMemeDestinationIdOnly (meme : JVal) : JVal :=
  match meme.get "id" with
  | .str s => .str ("/memes/" ++ s)
  | .num n => .str ("/memes/" ++ intToStringJS n)
  | _ => .null

/-- The slug/id tail of `resolveMemeDestination` (source lines 581-588). -/
def resolveMemeDestinationFromId (meme : JVal) : JVal :=
  match meme.get "slug" with
  | .str s =>
    if s.length > 0 then .str ("/memes/" ++ s) else resolveMemeDestinationIdOnly meme
  | _ => resolveMemeDestinationIdOnly meme

/-- The record half of `resolveMemeDestination` (source lines 572-590). -/
def resolveMemeDestinationFromMeme (meme : JVal) : JVal :=
  if meme.toBool then
    match meme.get "permalink" with
    | .str s => .str s
    | _ =>
      match meme.get "url" with
      | .str s =>
        if startsWithJS s "http" then .str s else resolveMemeDestinationFromId meme
      | _ => resolveMemeDestinationFromId meme
  else .null

/-- `resolveMemeDestination(payload, meme)`: an explicit redirect target on
the payload, the record permalink, an `http` record URL, or a `/memes/…` path
synthesised from the record slug or id; `null` when none resolves. -/
def resolveMemeDestination (payload meme : JVal) : JVal :=
  let directUrl := jsOrN [payload.get "redirect", payload.get "url",
    payload.get "location", payload.get "permalink"]
  match directUrl with
  | .str s =>
    if s.length > 0 then .str s else resolveMemeDestinationFromMeme meme
  | _ => resolveMemeDestinationFromMeme meme

/-- `resolveNextLink(payload)`: the first truthy value among the aliased
next-link paths, kept only when it is a non-empty string. -/
def resolveNextLink (payload : JVal) : JVal :=
  let link := jsOrN [(payload.get "links").get "next", (payload.get "links").get "nextUrl",
    payload.get "nextUrl", payload.get "next",
    (payload.get "meta").get "nextUrl", (payload.get "meta").get "next",
    (payload.get "pagination").get "nextUrl", (payload.get "pagination").get "next"]
  match link with
  | .str s => if s.length > 0 then .str s else .null
  | _ => .null

/-- `resolveNextCursor(payload)`: the first truthy value among the aliased
cursor paths, kept unless it is `undefined`, `null` or the empty string. -/
def resolveNextCursor (payload : JVal) : JVal :=
  let cursor := jsOrN [payload.get "nextCursor", payload.get "cursor",
    (payload.get "pagination").get "nextCursor", (payload.get "meta").get "nextCursor"]
  if cursor.isNullish then .null
  else if cursor = .str "" then .null
  else cursor

/-- The `currentPage + 1` fallback of `resolveNextPage` (source lines
688-705): requires a finite numeric current page and either a falsy
`totalPages` or `currentPage < totalPages`. -/
def resolveNextPageFromCurrent (payload : JVal) : JVal :=
  let currentPage := jsOrN [(payload.get "meta").get "page",
    (payload.get "meta").get "currentPage",
    (payload.get "pagination").get "page",
    (payload.get "pagination").get "currentPage"]
  let totalPages := jsOr ((payload.get "meta").get "totalPages")
    ((payload.get "pagination").get "totalPages")
  match currentPage with
  | .num c => if !totalPages.toBool || jsLtNum c totalPages then .num (c + 1) else .null
  | _ => .null

/-- `resolveNextPage(payload)`: an explicit next-page number (numeric, or a
parsable numeric string), else the `currentPage + 1` derivation. -/
def resolveNextPage (payload : JVal) : JVal :=
  let nextPage := jsOrN [payload.get "nextPage", (payload.get "meta").get "nextPage",
    (payload.get "pagination").get "nextPage"]
  match nextPage with
  | .num n => .num n
  | .str s =>
    if trimJS s ≠ "" then
      match parseIntJS s with
      | some n => .num n
      | none => resolveNextPageFromCurrent payload
    else resolveNextPageFromCurrent payload
  | _ => resolveNextPageFromCurrent payload

/-- `resolveHasMore(payload, receivedCount)`: a boolean has-more flag, a
negated boolean is-end flag, a truthy `links.next`, a numeric
current/total page comparison, or the received-count-vs-page-size heuristic. -/
def resolveHasMore (payload : JVal) (receivedCount : Nat) : Bool :=
  if !payload.toBool || !payload.typeofObject then decide (receivedCount ≥ PAGE_SIZE)
  else
    let hasMore := jsNullishN [payload.get "hasMore", payload.get "has_more",
      (payload.get "meta").get "hasMore", (payload.get "meta").get "has_more",
      (payload.get "pagination").get "hasMore", (payload.get "pagination").get "has_more"]
    match hasMore with
    | .bool b => b
    | _ =>
      let isEnd := jsNullishN [payload.get "isEnd", (payload.get "meta").get "isEnd",
        (payload.get "pagination").get "isEnd"]
      match isEnd with
      | .bool b => !b
      | _ =>
        if ((payload.get "links").get "next").toBool then true
        else
          match (payload.get "meta").get "totalPages", (payload.get "meta").get "currentPage" with
          | .num tp, .num cp => decide (cp < tp)
          | _, _ =>
            match (payload.get "pagination").get "totalPages",
                (payload.get "pagination").get "currentPage" with
            | .num tp, .num cp => decide (cp < tp)
            | _, _ => decide (receivedCount ≥ PAGE_SIZE)

/-- `getMemeKey(meme)`: the first non-nullish identity alias, then the
synthetic `image:`/`url:` keys, else `null`. -/
def getMemeKey (meme : JVal) : JVal :=
  if !meme.toBool || !meme.typeofObject then .null
  else
    jsNullishN [meme.get "id", meme.get "uuid", meme.get "slug", meme.get "identifier",
      meme.get "_id", meme.get "guid", meme.get "externalId", meme.get "reference",
      (if (meme.get "imageUrl").toBool
        then .str ("image:" ++ (meme.get "imageUrl").toStringJS) else .null),
      (if (meme.get "url").toBool
        then .str ("url:" ++ (meme.get "url").toStringJS) else .null),
      .null]

/-- The usability test shared by `resolveIdentifier` and the `isUsable`
closure of `getIdentifierForRequest`: a string with non-blank trim, or a
finite number. -/
def isUsableId : JVal → Bool
  | .str s => trimJS s != ""
  | .num _ => true
  | _ => false

/-- `resolveIdentifier(meme)`: the first usable identity alias, else `null`. -/
def resolveIdentifier (meme : JVal) : JVal :=
  if !meme.toBool || !meme.typeofObject then .null
  else
    let candidates := [meme.get "id", meme.get "uuid", meme.get "slug",
      meme.get "identifier", meme.get "_id", meme.get "guid",
      meme.get "externalId", meme.get "reference"]
    (candidates.find? isUsableId).getD .null

/-- `resolveImageSource(meme)`: the first truthy image alias, else `""`. -/
def resolveImageSource (meme : JVal) : JVal :=
  if !meme.toBool || !meme.typeofObject then .str ""
  else jsOrN [meme.get "imageUrl", meme.get "image", meme.get "url",
    meme.get "mediaUrl", meme.get "src", .str ""]

/-- `resolveCaption(meme)`: the first truthy caption alias, else the default
caption. -/
def resolveCaption (meme : JVal) : JVal :=
  if !meme.toBool || !meme.typeofObject then .str "Untitled meme"
  else jsOrN [meme.get "caption", meme.get "title", meme.get "description",
    .str "Untitled meme"]

/-- `resolveAltText(meme, caption)`. -/
def resolveAltText (meme caption : JVal) : JVal :=
  if !meme.toBool || !meme.typeofObject then jsOr caption (.str "Meme image")
  else jsOrN [meme.get "alt", meme.get "altText", caption, .str "Meme image"]

/-- `normalizeScore(score)`: a finite number stays, a non-blank numeric
string parses via `parseInt`, everything else is 0. -/
def normalizeScore (score : JVal) : Int :=
  match score with
  | .num n => n
  | .str s =>
    if trimJS s ≠ "" then
      match parseIntJS s with
      | some n => n
      | none => 0
    else 0
  | _ => 0

/-- The `payload.meme.score` tail of `resolveScoreFromPayload` (source lines
933-937). -/
def scoreFromMemeField (payload : JVal) : JVal :=
  let m := payload.get "meme"
  if m.toBool then
    match m.get "score" with
    | .num n => .num n
    | _ => .undefined
  else .undefined

/-- `typeof v === "number"`. -/
def JVal.isNum : JVal → Bool
  | .num _ => true
  | _ => false

/-- Keep `v` when it is a number (`typeof v === "number"`), else fall back —
the shape of every `if (typeof x === "number") return x;` step of
`resolveScoreFromPayload`. -/
def numOr (v fallback : JVal) : JVal := if v.isNum then v else fallback

/-- The `payload.data` branch of `resolveScoreFromPayload` (source lines
921-931): a numeric `data`, a numeric `data.score`, a numeric
`data[0].score`, else the `meme.score` tail. -/
def scoreFromDataField (payload : JVal) : JVal :=
  let data := payload.get "data"
  if data.toBool then
    numOr data
      (numOr (data.get "score")
        (if data.isArr then
          numOr ((data.atIdx 0).get "score") (scoreFromMemeField payload)
        else scoreFromMemeField payload))
  else scoreFromMemeField payload

/-- `resolveScoreFromPayload(payload)`: a bare number, a number under
`score`/`newScore`/`updatedScore`, a numeric `data`, `data.score`,
`data[0].score`, or `meme.score`; only values of `typeof "number"` are
accepted, and `undefined` is returned when none is found. -/
def resolveScoreFromPayload (payload : JVal) : JVal :=
  if payload.isNum then payload
  else if !payload.toBool || !payload.typeofObject then .undefined
  else
    numOr (payload.get "score")
      (numOr (payload.get "newScore")
        (numOr (payload.get "updatedScore") (scoreFromDataField payload)))

/-! ## Rendering state (source lines 111-129, 233-339, 789-804)

The DOM grid, the `renderedMemes` set, and the `memeStates` map become
explicit lists.  A `Card` keeps the mutable pieces of a rendered card's DOM
(`data-meme-key` attribute, image/caption/alt text, the score display and the
inline error element).  `Set`/`Map` iteration order is insertion order, so
both are insertion-ordered lists. -/

structure MemeState where
  key : JVal
  id : JVal
  score : Int
deriving DecidableEq

structure Card where
  memeKey : Option String
  imageSrc : Option String
  textOnly : Bool
  altText : String
  caption : String
  scoreDisplay : Int
  errorText : String
  errorHidden : Bool
deriving DecidableEq

structure RenderState where
  renderedMemes : List JVal
  cards : List Card
  memeStates : List (JVal × MemeState)
deriving DecidableEq

def emptyRender : RenderState := { renderedMemes := [], cards := [], memeStates := [] }

/-- `Set.add`: append the key unless already present (SameValueZero). -/
def setAdd (l : List JVal) (k : JVal) : List JVal :=
  if k ∈ l then l else l ++ [k]

/-- `Map.set`: replace the value at the first matching key, else append. -/
def memeStatesSet : List (JVal × MemeState) → JVal → MemeState → List (JVal × MemeState)
  | [], k, v => [(k, v)]
  | e :: rest, k, v => if e.1 = k then (k, v) :: rest else e :: memeStatesSet rest k v

/-- `Map.get`: the value at the first matching key. -/
def memeStatesGet (m : List (JVal × MemeState)) (k : JVal) : Option MemeState :=
  (m.find? (fun e => e.1 == k)).map (fun e => e.2)

/-- `findCardByKey(key)`: `null` for a falsy key, else the first grid card
whose `data-meme-key` attribute is `String(key)` (the CSS escaping applied by
the source round-trips through the selector engine, so matching on the raw
string is the selector's semantics).  Returns the index into the card list. -/
def findCardByKey (key : JVal) (cards : List Card) : Option Nat :=
  if !key.toBool then none
  else cards.findIdx? (fun c => c.memeKey == some key.toStringJS)

/-- `createMemeCard(meme, key)` (source lines 269-339): builds the card
(the template always provides image, caption, score and error elements),
builds the per-card `memeState`, and registers it in `memeStates` when the
key is truthy.  Returns the card, the state, and the updated map. -/
def createMemeCard (meme key : JVal) (states : List (JVal × MemeState)) :
    Card × MemeState × List (JVal × MemeState) :=
  let imageSrc := resolveImageSource meme
  let captionText := resolveCaption meme
  let scoreValue := normalizeScore (meme.get "score")
  let card : Card :=
    { memeKey := if key.toBool then some key.toStringJS else none
      imageSrc := if imageSrc.toBool then some imageSrc.toStringJS else none
      textOnly := !imageSrc.toBool
      altText := (resolveAltText meme captionText).toStringJS
      caption := captionText.toStringJS
      scoreDisplay := scoreValue
      errorText := ""
      errorHidden := true }
  let memeState : MemeState := { key := key, id := resolveIdentifier meme, score := scoreValue }
  (card, memeState, if key.toBool then memeStatesSet states key memeState else states)

/-- Overwrite the score display of the card at index `i`. -/
def setCardScore : List Card → Nat → Int → List Card
  | [], _, _ => []
  | c :: rest, 0, n => { c with scoreDisplay := n } :: rest
  | c :: rest, i + 1, n => c :: setCardScore rest i n

/-- The loop state of `renderMemes`: the live grid (existing-card updates
apply to it), the detached fragment collecting new cards (invisible to
`findCardByKey` until appended), and the live set and map. -/
structure RenderLoop where
  grid : List Card
  fragment : List Card
  renderedMemes : List JVal
  memeStates : List (JVal × MemeState)

/-- One iteration of the `renderMemes` forEach (source lines 236-262). -/
def renderOne (acc : RenderLoop) (meme : JVal) : RenderLoop :=
  let key := getMemeKey meme
  if key.toBool && acc.renderedMemes.contains key then
    match findCardByKey key acc.grid with
    | some i =>
      let nextScore := normalizeScore (meme.get "score")
      let grid1 := setCardScore acc.grid i nextScore
      let states1 :=
        match memeStatesGet acc.memeStates key with
        | some st => memeStatesSet acc.memeStates key { st with score := nextScore }
        | none => acc.memeStates
      { acc with grid := grid1, memeStates := states1 }
    | none => acc
  else
    let created := createMemeCard meme key acc.memeStates
    { acc with
      fragment := acc.fragment ++ [created.1]
      memeStates := created.2.2
      renderedMemes := if key.toBool then setAdd acc.renderedMemes key else acc.renderedMemes }

/-- `renderMemes(memes)`: fold the per-record step, then append the fragment
to the grid. -/
def renderMemes (memes : List JVal) (rs : RenderState) : RenderState :=
  let l := memes.foldl renderOne
    { grid := rs.cards, fragment := [], renderedMemes := rs.renderedMemes,
      memeStates := rs.memeStates }
  { renderedMemes := l.renderedMemes, cards := l.grid ++ l.fragment,
    memeStates := l.memeStates }

/-! ## Pagination cursor and UI state (source lines 120-129, 593-637,
751-804, 970-1004) -/

/-- The query part of a feed URL built by `createUrl` (the URL resolves the
feed endpoint against the page origin; the origin is carried implicitly). -/
structure FeedQuery where
  cursor : Option String
  page : Option String
  limit : String
deriving DecidableEq

/-- A value of `state.nextRequest`: either a feed-endpoint URL built by
`createUrl`, or a link taken from the payload resolved against the page
origin by `normalizeUrl`. -/
inductive NextTarget where
  | feedUrl (q : FeedQuery)
  | linkUrl (href : String)
deriving DecidableEq

/-- The options object accepted by `createUrl`. -/
structure CreateOpts where
  cursor : JVal := .undefined
  page : JVal := .undefined

/-- `createUrl(options)`: set `cursor` if truthy, else `page` if truthy, and
always `limit = PAGE_SIZE` (values pass through `searchParams.set`, which
stringifies them). -/
def createUrl (o : CreateOpts) : NextTarget :=
  .feedUrl
    { cursor := if o.cursor.toBool then some o.cursor.toStringJS else none
      page := if !o.cursor.toBool && o.page.toBool then some o.page.toStringJS else none
      limit := intToStringJS (PAGE_SIZE : Int) }

/-- The forbidden host code points of the WHATWG URL standard — the
characters that make host parsing fail in a non-bracketed host. -/
def forbiddenHostChar (c : Char) : Bool :=
  c = '\x00' || c = '\t' || c = '\n' || c = '\r' || c = ' ' || c = '#' || c = '/' ||
  c = ':' || c = '<' || c = '>' || c = '?' || c = '@' || c = '[' || c = '\\' ||
  c = ']' || c = '^' || c = '|'

/-- Userinfo is separated from the host by the last `@` of the authority. -/
def stripUserinfo (a : List Char) : List Char :=
  if a.contains '@' then (a.reverse.takeWhile (fun c => c != '@')).reverse else a

/-- Validity of the `host[:port]` part of an authority: a non-empty
bracketed IPv6-style host of hex digits, colons and dots, or a non-empty
host free of forbidden code points; the port, when present, is a possibly
empty digit string. -/
def checkHostPort (a : List Char) : Bool :=
  match a with
  | '[' :: rest =>
    let inside := rest.takeWhile (fun c => c != ']')
    match rest.dropWhile (fun c => c != ']') with
    | ']' :: tail =>
      (!inside.isEmpty && inside.all (fun c =>
        c.isDigit || (c ≥ 'a' && c ≤ 'f') || (c ≥ 'A' && c ≤ 'F') || c = ':' || c = '.')) &&
      (match tail with
       | [] => true
       | ':' :: port => port.all Char.isDigit
       | _ => false)
    | _ => false
  | _ =>
    let host := a.takeWhile (fun c => c != ':')
    let port := (a.dropWhile (fun c => c != ':')).drop 1
    !host.isEmpty && host.all (fun c => !forbiddenHostChar c) && port.all Char.isDigit

/-- Does `new URL(maybeUrl, window.location.origin)` succeed?  Against the
page's well-formed origin, parsing fails exactly when an authority-carrying
form has an invalid host or port: the model validates the authority of
absolute special-scheme URLs and of protocol-relative references, and every
other form (path/query/fragment references, non-special schemes) resolves
without failure.  Exotic inputs outside the shapes a feed link can take
(such as special-scheme URLs written without slashes, or IDNA and
percent-decoding corner cases inside hostnames) are approximated as
parseable. -/
def urlCanParse (maybeUrl : String) : Bool :=
  let cs := maybeUrl.data
  let authority : Option (List Char) :=
    if startsWithJS maybeUrl "http://" then some (cs.drop 7)
    else if startsWithJS maybeUrl "https://" then some (cs.drop 8)
    else if startsWithJS maybeUrl "ws://" then some (cs.drop 5)
    else if startsWithJS maybeUrl "wss://" then some (cs.drop 6)
    else if startsWithJS maybeUrl "ftp://" then some (cs.drop 6)
    else if startsWithJS maybeUrl "//" then some (cs.drop 2)
    else none
  match authority with
  | some rest =>
    let afterSlashes := rest.dropWhile (fun c => c = '/' || c = '\\')
    checkHostPort (stripUserinfo
      (afterSlashes.takeWhile (fun c => c != '/' && c != '\\' && c != '?' && c != '#')))
  | none => true

/-- `normalizeUrl(maybeUrl)`: `new URL(maybeUrl, window.location.origin)
.toString()`, or `null` when the constructor throws.  The model keeps the
raw href of a successfully resolved link. -/
def normalizeUrl (maybeUrl : String) : Option NextTarget :=
  if urlCanParse maybeUrl then some (.linkUrl maybeUrl) else none

structure FeedState where
  nextRequest : Option NextTarget
  loading : Bool
  done : Bool
  initialLoad : Bool
  fallbackPage : Int
deriving DecidableEq

/-- The module-level `state` initialiser (source lines 123-129). -/
def initialFeedState : FeedState :=
  { nextRequest := some (createUrl {}), loading := false, done := false,
    initialLoad := true, fallbackPage := 1 }

structure Status where
  text : String
  variant : String
  hidden : Bool
deriving DecidableEq

/-- The status region, the loader, the end-of-feed marker and the manual
load-more button. -/
structure PageUi where
  status : Status
  loaderVisible : Bool
  endVisible : Bool
  loadMoreHidden : Bool
deriving DecidableEq

def initialUi : PageUi :=
  { status := { text := "", variant := "", hidden := true },
    loaderVisible := false, endVisible := false, loadMoreHidden := true }

def showStatus (message variant : String) (ui : PageUi) : PageUi :=
  { ui with status := { text := message, variant := variant, hidden := false } }

def hideStatus (ui : PageUi) : PageUi :=
  { ui with status := { text := "", variant := "", hidden := true } }

def setLoaderState (active : Bool) (ui : PageUi) : PageUi :=
  { ui with loaderVisible := active }

def showEndState (visible : Bool) (ui : PageUi) : PageUi :=
  { ui with endVisible := visible }

def revealLoadMoreButton (ui : PageUi) : PageUi :=
  { ui with loadMoreHidden := false }

/-- `updateNextRequest(payload, receivedCount)` (source lines 593-637): the
four pagination strategies in order — link, cursor, page number, has-more
heuristic — else terminal state. -/
def updateNextRequest (payload : JVal) (receivedCount : Nat) (fs : FeedState)
    (ui : PageUi) : FeedState × PageUi :=
  match resolveNextLink payload with
  | .str s =>
    match normalizeUrl s with
    | some u => ({ fs with nextRequest := some u, done := false }, showEndState false ui)
    | none => ({ fs with nextRequest := none, done := true }, showEndState true ui)
  | _ =>
    let nextCursor := resolveNextCursor payload
    if nextCursor.toBool then
      ({ fs with nextRequest := some (createUrl { cursor := nextCursor }), done := false },
        showEndState false ui)
    else
      let nextPage := resolveNextPage payload
      if nextPage.toBool then
        let target := createUrl { page := nextPage }
        let fp := match nextPage with | .num n => n | _ => fs.fallbackPage
        ({ fs with nextRequest := some target, fallbackPage := fp, done := false },
          showEndState false ui)
      else if resolveHasMore payload receivedCount then
        let fp := (if fs.fallbackPage = 0 then 1 else fs.fallbackPage) + 1
        let target := createUrl { page := .num fp }
        ({ fs with fallbackPage := fp, nextRequest := some target, done := false },
          showEndState false ui)
      else
        ({ fs with nextRequest := none, done := true }, showEndState true ui)

/-! ## Feed loader (source lines 192-231)

The `await fetch` suspension is modelled by a `FetchOutcome` parameter: the
parsed body on success (`safeJson` never rejects — a missing or malformed
body becomes `{}`), a thrown error on a non-2xx response, or a fetch
rejection carrying its error message (`""` when the error has no message,
matching the `error?.message ||` fallbacks). -/

inductive FetchOutcome where
  | success (payload : JVal)
  | httpFail
  | netFail (message : String)
deriving DecidableEq

def FetchOutcome.isFail : FetchOutcome → Bool
  | .httpFail => true
  | .netFail _ => true
  | .success _ => false

/-- The result of one `loadMoreMemes` call: the new state, and the request
target fetched, if any (`some none` means `fetch(null)` was issued — the
guard let a call through with no next request). -/
structure LoadResult where
  fs : FeedState
  ui : PageUi
  rs : RenderState
  fetched : Option (Option NextTarget)
deriving DecidableEq

/-- `loadMoreMemes({force})` (source lines 192-231): re-entrancy guard, then
fetch, render, cursor update (or error status + manual retry), then the
`finally` block. -/
def loadMoreMemes (force : Bool) (outcome : FetchOutcome) (fs : FeedState)
    (ui : PageUi) (rs : RenderState) : LoadResult :=
  if !force && (fs.loading || fs.done || fs.nextRequest == none) then
    { fs := fs, ui := ui, rs := rs, fetched := none }
  else
    let ui1 := setLoaderState true (hideStatus ui)
    let fs1 := { fs with loading := true }
    let afterTry : FeedState × PageUi × RenderState :=
      match outcome with
      | .success payload =>
        let memes := extractMemes payload
        if memes.length > 0 then
          let rs1 := renderMemes memes rs
          let (fs2, ui2) := updateNextRequest payload memes.length fs1 ui1
          (fs2, ui2, rs1)
        else if fs1.initialLoad then
          let ui2 := showEndState true
            (showStatus "No approved memes yet. Be the first to upload!" "info" ui1)
          let (fs3, ui3) := updateNextRequest payload 0 { fs1 with done := true } ui2
          (fs3, ui3, rs)
        else
          let (fs2, ui2) := updateNextRequest payload 0 fs1 ui1
          (fs2, ui2, rs)
      | .httpFail =>
        (fs1, revealLoadMoreButton
          (showStatus "Failed to load memes. Please try again." "error" ui1), rs)
      | .netFail msg =>
        let text := if msg = "" then "Something went wrong while loading memes." else msg
        (fs1, revealLoadMoreButton (showStatus text "error" ui1), rs)
    { fs := { afterTry.1 with loading := false, initialLoad := false },
      ui := setLoaderState false afterTry.2.1,
      rs := afterTry.2.2,
      fetched := some fs.nextRequest }

/-! ## Vote controller (source lines 341-442, 940-968)

`setupVoting` closes over one card's elements and its `memeState`; a
`VoteEnv` carries exactly that closure state.  The vote request itself is
recorded as the identifier plus the JSON body (the URL built by
`buildVoteUrl` URL-encodes the identifier into `/api/memes/{…}/vote`; the
model keeps the identifier rather than the encoded path). -/

inductive Direction where
  | up
  | down
deriving DecidableEq

def directionStr : Direction → String
  | .up => "up"
  | .down => "down"

structure VoteEnv where
  memeState : MemeState
  displayScore : Int
  errorText : String
  errorHidden : Bool
  buttonsDisabled : Bool
  isPending : Bool
deriving DecidableEq

/-- `getIdentifierForRequest(memeState)`: a usable `id`, else a usable
string key that is not an `image:`/`url:` synthetic key, else `null`. -/
def getIdentifierForRequest (ms : MemeState) : JVal :=
  if isUsableId ms.id then ms.id
  else
    match ms.key with
    | .str s =>
      if isUsableId (.str s) && !startsWithJS s "image:" && !startsWithJS s "url:" then .str s
      else .null
    | _ => .null

/-- The JSON body of the vote POST (direction duplicated under `vote`). -/
structure VoteRequest where
  memeId : JVal
  direction : String
  vote : String
  value : Int
deriving DecidableEq

structure VoteEvent where
  name : String
  memeId : JVal
  direction : String
  score : Int
deriving DecidableEq

/-- `dispatchVoteEvents(identifier, direction, score)`: the `meme:vote` and
`gamification:vote` events, skipped for a falsy identifier. -/
def dispatchVoteEvents (identifier : JVal) (direction : String) (score : Int) :
    List VoteEvent :=
  if !identifier.toBool then []
  else
    [{ name := "meme:vote", memeId := identifier, direction := direction, score := score },
     { name := "gamification:vote", memeId := identifier, direction := direction,
       score := score }]

structure VoteResult where
  env : VoteEnv
  request : Option VoteRequest
  events : List VoteEvent
deriving DecidableEq

/-- `updateScore(nextScore)`: writes both the `memeState` score and the
score display (the closure mutates the shared state object and the DOM
text in one step). -/
def updateScore (env : VoteEnv) (n : Int) : VoteEnv :=
  { env with memeState := { env.memeState with score := n }, displayScore := n }

/-- `handleVote(direction)` (source lines 363-427): pending guard,
identifier precondition, optimistic update, request, reconciliation or
rollback, and the `finally` block. -/
def handleVote (direction : Direction) (env : VoteEnv) (outcome : FetchOutcome) :
    VoteResult :=
  if env.isPending then { env := env, request := none, events := [] }
  else
    let identifierForPayload := getIdentifierForRequest env.memeState
    if !identifierForPayload.toBool then
      let envErr :=
        { env with
          errorText := "Voting isn\x27t available for this meme yet.",
          errorHidden := false }
      { env := envErr, request := none, events := [] }
    else
      let delta : Int := if direction = .up then 1 else -1
      let previousScore := env.memeState.score
      let env1 := updateScore env (previousScore + delta)
      let env2 :=
        { env1 with
          buttonsDisabled := true, isPending := true,
          errorText := "", errorHidden := true }
      let req : VoteRequest :=
        { memeId := identifierForPayload, direction := directionStr direction,
          vote := directionStr direction, value := delta }
      let settled : VoteEnv × List VoteEvent :=
        match outcome with
        | .success payload =>
          let updatedScore := resolveScoreFromPayload payload
          let env3 := match updatedScore with
            | .num n => updateScore env2 n
            | _ => env2
          (env3, dispatchVoteEvents identifierForPayload (directionStr direction)
            env3.memeState.score)
        | .httpFail =>
          ({ updateScore env2 previousScore with
             errorText := "Vote failed. Please try again.", errorHidden := false }, [])
        | .netFail msg =>
          let text := if msg = "" then "Vote failed. Please try again." else msg
          ({ updateScore env2 previousScore with
             errorText := text, errorHidden := false }, [])
      { env := { settled.1 with buttonsDisabled := false, isPending := false },
        request := some req, events := settled.2 }

/-! ## Random-meme navigator (source lines 444-502) -/

inductive RandomAction where
  | navigated (dest : String)
  | scrolledToExisting
  | prependedNew
  | showedError
deriving DecidableEq

structure RandomResult where
  rs : RenderState
  ui : PageUi
  action : RandomAction
  buttonDisabled : Bool
  buttonLabel : String
deriving DecidableEq

/-- `handleRandomMeme()` (source lines 444-502): explicit destination wins
(full navigation), else scroll to the already-rendered card, else create and
prepend a new card (registering its `data-meme-key` string in the rendered
set), else an error status; the trigger button is restored in the `finally`
block in every outcome. -/
def handleRandomMeme (outcome : FetchOutcome) (rs : RenderState) (ui : PageUi)
    (originalText : String) : RandomResult :=
  let ui1 := hideStatus ui
  let inner : RenderState × PageUi × RandomAction :=
    match outcome with
    | .success payload =>
      let meme := resolveSingleMeme payload
      let destination := resolveMemeDestination payload meme
      if destination.toBool then
        (rs, ui1, .navigated destination.toStringJS)
      else if meme.toBool then
        let key := getMemeKey meme
        if key.toBool && rs.renderedMemes.contains key
            && (findCardByKey key rs.cards).isSome then
          (rs, ui1, .scrolledToExisting)
        else
          let created := createMemeCard meme (getMemeKey meme) rs.memeStates
          let rendered1 := match created.1.memeKey with
            | some s => if s ≠ "" then setAdd rs.renderedMemes (.str s) else rs.renderedMemes
            | none => rs.renderedMemes
          ({ renderedMemes := rendered1, cards := created.1 :: rs.cards,
             memeStates := created.2.2 }, ui1, .prependedNew)
      else
        (rs, showStatus "Unable to load a random meme right now." "error" ui1, .showedError)
    | .httpFail =>
      (rs, showStatus "Couldn\x27t fetch a random meme. Try again." "error" ui1, .showedError)
    | .netFail msg =>
      let text := if msg = "" then "Unable to load a random meme right now." else msg
      (rs, showStatus text "error" ui1, .showedError)
  { rs := inner.1, ui := inner.2.1, action := inner.2.2,
    buttonDisabled := false, buttonLabel := originalText }

/-! ## Shared lemmas -/

/-- A payload whose `hasMore` field is the boolean `false` makes
`resolveHasMore` answer `false` for every received count: the nullish chain
stops at the first non-nullish alias. -/
theorem resolveHasMore_false_of_hasMore_false (p : JVal) (cnt : Nat)
    (h : p.get "hasMore" = .bool false) : resolveHasMore p cnt = false := by
  cases p with
  | obj fields =>
    simp [resolveHasMore, JVal.toBool, JVal.typeofObject, jsNullishN, jsNullish,
      JVal.isNullish, h]
  | null => simp [JVal.get] at h
  | undefined => simp [JVal.get] at h
  | bool b => simp [JVal.get] at h
  | num n => simp [JVal.get] at h
  | str s => simp [JVal.get] at h
  | arr es => simp [JVal.get] at h

/-- A forced `loadMoreMemes` call always performs the fetch of the current
`nextRequest` (the guard is skipped entirely when `force` is set). -/
theorem loadMore_forced_fetches (out : FetchOutcome) (fs : FeedState) (ui : PageUi)
    (rs : RenderState) : (loadMoreMemes true out fs ui rs).fetched = some fs.nextRequest := by
  cases out <;> simp [loadMoreMemes]

/-- An unforced `loadMoreMemes` call while `loading` is a no-op. -/
theorem loadMore_loading_noop (out : FetchOutcome) (fs : FeedState) (ui : PageUi)
    (rs : RenderState) (h : fs.loading = true) :
    loadMoreMemes false out fs ui rs = ⟨fs, ui, rs, none⟩ := by
  simp [loadMoreMemes, h]

/-! ## Claims -/

/-- C2: the pagination resolver tries link, cursor, page-number and has-more
strategies in a fixed order, each only when the prior yields nothing: a
payload carrying both a next link and a next cursor is decided by the link
strategy alone — a resolvable link becomes the next request with `done`
cleared, an unresolvable link is terminal, and the cursor is never
consulted either way — and a payload whose only pagination signal is
`hasMore: false` yields the terminal state even when the received count
equals the page size of 12 (the count heuristic is never consulted). -/
theorem c2_pagination_fallback_ordering (p : JVal) (cnt : Nat) (fs : FeedState)
    (ui : PageUi) :
    (∀ s u, resolveNextLink p = .str s → resolveNextCursor p ≠ .null →
      normalizeUrl s = some u →
      (updateNextRequest p cnt fs ui).1.nextRequest = some u ∧
      (updateNextRequest p cnt fs ui).1.done = false) ∧
    (∀ s, resolveNextLink p = .str s → resolveNextCursor p ≠ .null →
      normalizeUrl s = none →
      (updateNextRequest p cnt fs ui).1.nextRequest = none ∧
      (updateNextRequest p cnt fs ui).1.done = true) ∧
    (resolveNextLink p = .null → resolveNextCursor p = .null →
      resolveNextPage p = .null → p.get "hasMore" = .bool false →
      (updateNextRequest p cnt fs ui).1.nextRequest = none ∧
      (updateNextRequest p cnt fs ui).1.done = true) := by
  refine ⟨?_, ?_, ?_⟩
  · intro s u hs _hc hu
    simp [updateNextRequest, hs, hu]
  · intro s hs _hc hu
    simp [updateNextRequest, hs, hu]
  · intro hl hc hp hm
    simp [updateNextRequest, hl, hc, hp, JVal.toBool,
      resolveHasMore_false_of_hasMore_false p cnt hm]

/-- C2 witness: with both `next` link and `nextCursor` present, the
resolvable link `/api/memes?page=2` becomes the next request; the
unparsable link `http://[` (invalid host, `new URL` throws) is terminal
despite the cursor; and `{data: …12 items…, hasMore: false}` with received
count 12 is terminal. -/
theorem c2_pagination_fallback_ordering_witness :
    (resolveNextLink (.obj [("next", .str "/api/memes?page=2"), ("nextCursor", .str "c")])
      = .str "/api/memes?page=2") ∧
    normalizeUrl "/api/memes?page=2" = some (.linkUrl "/api/memes?page=2") ∧
    ((updateNextRequest (.obj [("next", .str "/api/memes?page=2"), ("nextCursor", .str "c")])
        12 initialFeedState initialUi).1.nextRequest = some (.linkUrl "/api/memes?page=2")) ∧
    (resolveNextLink (.obj [("next", .str "http://["), ("nextCursor", .str "c")])
      = .str "http://[") ∧
    normalizeUrl "http://[" = none ∧
    ((updateNextRequest (.obj [("next", .str "http://["), ("nextCursor", .str "c")])
        12 initialFeedState initialUi).1.nextRequest = none) ∧
    ((updateNextRequest (.obj [("next", .str "http://["), ("nextCursor", .str "c")])
        12 initialFeedState initialUi).1.done = true) ∧
    ((updateNextRequest (.obj [("data", .arr (List.replicate 12 (.obj [("id", .str "x")]))),
        ("hasMore", .bool false)]) 12 initialFeedState initialUi).1.nextRequest = none) ∧
    ((updateNextRequest (.obj [("data", .arr (List.replicate 12 (.obj [("id", .str "x")]))),
        ("hasMore", .bool false)]) 12 initialFeedState initialUi).1.done = true) :=
  ⟨by decide, by decide,
    ((c2_pagination_fallback_ordering _ 12 initialFeedState initialUi).1
      "/api/memes?page=2" (.linkUrl "/api/memes?page=2") (by decide) (by decide)
      (by decide)).1,
    by decide, by decide,
    ((c2_pagination_fallback_ordering _ 12 initialFeedState initialUi).2.1
      "http://[" (by decide) (by decide) (by decide)).1,
    ((c2_pagination_fallback_ordering _ 12 initialFeedState initialUi).2.1
      "http://[" (by decide) (by decide) (by decide)).2,
    ((c2_pagination_fallback_ordering _ 12 initialFeedState initialUi).2.2
      (by decide) (by decide) (by decide) (by decide)).1,
    ((c2_pagination_fallback_ordering _ 12 initialFeedState initialUi).2.2
      (by decide) (by decide) (by decide) (by decide)).2⟩

/-- C5 counterexample: in the `done` state a forced load-more call still
performs a fetch (the guard `!force && (loading || done || !nextRequest)` is
skipped entirely when `force` is set, so `done` does not stop it; the fetch
targets the null `nextRequest`).  The claim states that no fetch happens. -/
theorem c5_counterexample_forced_load_ignores_done :
    ({ nextRequest := none, loading := false, done := true, initialLoad := false,
       fallbackPage := 1 } : FeedState).done = true ∧
    (loadMoreMemes true (.success (.obj []))
      { nextRequest := none, loading := false, done := true, initialLoad := false,
        fallbackPage := 1 } initialUi emptyRender).fetched ≠ none := by decide

/-- C5 (amended): an unforced load while `loading` is a no-op, and a forced
load bypasses all three guards — loading, done and absent next request — so
it always performs the fetch of the current `nextRequest` (which is the null
request in the terminal state). -/
theorem c5_loading_guard_force_bypass (out : FetchOutcome) (fs : FeedState)
    (ui : PageUi) (rs : RenderState) :
    (fs.loading = true → loadMoreMemes false out fs ui rs = ⟨fs, ui, rs, none⟩) ∧
    (loadMoreMemes true out fs ui rs).fetched = some fs.nextRequest :=
  ⟨fun h => loadMore_loading_noop out fs ui rs h,
   loadMore_forced_fetches out fs ui rs⟩

/-- C5 witness: the loading no-op and the forced fetch at concrete states. -/
theorem c5_loading_guard_force_bypass_witness :
    ({ initialFeedState with loading := true } : FeedState).loading = true ∧
    loadMoreMemes false (.success (.obj [])) { initialFeedState with loading := true }
      initialUi emptyRender
      = ⟨{ initialFeedState with loading := true }, initialUi, emptyRender, none⟩ ∧
    (loadMoreMemes true (.success (.obj [])) initialFeedState initialUi
      emptyRender).fetched = some initialFeedState.nextRequest :=
  ⟨rfl,
   (c5_loading_guard_force_bypass (.success (.obj []))
     { initialFeedState with loading := true } initialUi emptyRender).1 rfl,
   (c5_loading_guard_force_bypass (.success (.obj [])) initialFeedState initialUi
     emptyRender).2⟩

/-- A feed response whose pagination block carries `currentPage` and
`totalPages`. -/
def pagePayload (c t : Int) : JVal :=
  .obj [("pagination", .obj [("currentPage", .num c), ("totalPages", .num t)])]

/-- A feed response whose pagination block carries only `currentPage`. -/
def pageOnlyCurrent (c : Int) : JVal :=
  .obj [("pagination", .obj [("currentPage", .num c)])]

/-- C6 counterexample: the payload `{pagination: {currentPage: 1}}` carries
no total page count anywhere, yet the page-number strategy still derives
page 2 and `updateNextRequest` targets page 2 instead of terminal — the
`!totalPages ||` disjunct derives `currentPage + 1` also when the total is
absent, so "exactly when both … are present" is false. -/
theorem c6_counterexample_missing_totalPages :
    ((pageOnlyCurrent 1).get "pagination").get "totalPages" = .undefined ∧
    ((pageOnlyCurrent 1).get "meta").get "totalPages" = .undefined ∧
    resolveNextPage (pageOnlyCurrent 1) = .num 2 ∧
    (updateNextRequest (pageOnlyCurrent 1) 0 initialFeedState initialUi).1.nextRequest
      = some (createUrl { page := .num 2 }) ∧
    (updateNextRequest (pageOnlyCurrent 1) 0 initialFeedState initialUi).1.done
      = false := by decide

/-- C6 (amended): with no link, cursor or explicit next-page number, the
page-number strategy derives `currentPage + 1` whenever a numeric current
page is present and the total page count is either falsy/absent or greater
than the current page (`!totalPages || currentPage < totalPages`); in
particular a page-1 response with `{currentPage: 1, totalPages: 3}` makes
the next request target page 2, and `{currentPage: 3, totalPages: 3}` yields
the terminal state, for every received count and prior cursor state. -/
theorem c6_page_number_strategy (fs : FeedState) (ui : PageUi) (cnt : Nat) (c t : Int) :
    ((t = 0 ∨ c < t) → resolveNextPage (pagePayload c t) = .num (c + 1)) ∧
    (t ≠ 0 → ¬(c < t) → resolveNextPage (pagePayload c t) = .null) ∧
    resolveNextPage (pageOnlyCurrent c) = .num (c + 1) ∧
    ((updateNextRequest (pagePayload 1 3) cnt fs ui).1.nextRequest
        = some (createUrl { page := .num 2 }) ∧
      (updateNextRequest (pagePayload 1 3) cnt fs ui).1.fallbackPage = 2 ∧
      (updateNextRequest (pagePayload 1 3) cnt fs ui).1.done = false) ∧
    ((updateNextRequest (pagePayload 3 3) cnt fs ui).1.nextRequest = none ∧
      (updateNextRequest (pagePayload 3 3) cnt fs ui).1.done = true) := by
  refine ⟨?_, ?_, ?_, ⟨rfl, rfl, rfl⟩, ⟨rfl, rfl⟩⟩
  · intro h
    rcases h with h | h <;>
      simp [resolveNextPage, pagePayload, resolveNextPageFromCurrent, JVal.get,
        jsOrN, jsOr, jsNullishN, jsNullish, JVal.isNullish, JVal.toBool, jsLtNum,
        toNumberJS, h]
  · intro h1 h2
    simp [resolveNextPage, pagePayload, resolveNextPageFromCurrent, JVal.get,
      jsOrN, jsOr, jsNullishN, jsNullish, JVal.isNullish, JVal.toBool, jsLtNum,
      toNumberJS, h1, h2]
  · simp [resolveNextPage, pageOnlyCurrent, resolveNextPageFromCurrent, JVal.get,
      jsOrN, jsOr, jsNullishN, jsNullish, JVal.isNullish, JVal.toBool, jsLtNum,
      toNumberJS]

/-- C6 witness: the derivation and the two end-to-end scenarios at concrete
inputs. -/
theorem c6_page_number_strategy_witness :
    ((1 : Int) = 0 ∨ (1 : Int) < 3) ∧
    resolveNextPage (pagePayload 1 3) = .num 2 ∧
    ((3 : Int) ≠ 0 ∧ ¬((3 : Int) < 3)) ∧
    resolveNextPage (pagePayload 3 3) = .null ∧
    (updateNextRequest (pagePayload 1 3) 12 initialFeedState initialUi).1.nextRequest
      = some (createUrl { page := .num 2 }) ∧
    (updateNextRequest (pagePayload 3 3) 12 initialFeedState initialUi).1.done = true :=
  ⟨Or.inr (by decide),
   (c6_page_number_strategy initialFeedState initialUi 12 1 3).1 (Or.inr (by decide)),
   ⟨by decide, by decide⟩,
   (c6_page_number_strategy initialFeedState initialUi 12 3 3).2.1 (by decide) (by decide),
   (c6_page_number_strategy initialFeedState initialUi 12 1 3).2.2.2.1.1,
   (c6_page_number_strategy initialFeedState initialUi 12 3 3).2.2.2.2.2⟩

/-- C7: for every feed fetch that fails (non-2xx response or rejection), the
loader shows an error status, reveals the manual retry control, and leaves
the cursor state — `nextRequest`, `done`, `fallbackPage` — exactly as before
the attempt, so the (forced) retry issues the same request. -/
theorem c7_feed_failure_keeps_cursor (fs : FeedState) (ui : PageUi) (rs : RenderState)
    (out out₂ : FetchOutcome) (u : NextTarget)
    (hL : fs.loading = false) (hD : fs.done = false) (hN : fs.nextRequest = some u)
    (hF : out.isFail = true) :
    (loadMoreMemes false out fs ui rs).fs.nextRequest = fs.nextRequest ∧
    (loadMoreMemes false out fs ui rs).fs.done = fs.done ∧
    (loadMoreMemes false out fs ui rs).fs.fallbackPage = fs.fallbackPage ∧
    (loadMoreMemes false out fs ui rs).ui.status.hidden = false ∧
    (loadMoreMemes false out fs ui rs).ui.status.variant = "error" ∧
    (loadMoreMemes false out fs ui rs).ui.loadMoreHidden = false ∧
    (loadMoreMemes false out fs ui rs).fetched = some fs.nextRequest ∧
    (loadMoreMemes true out₂ (loadMoreMemes false out fs ui rs).fs
      (loadMoreMemes false out fs ui rs).ui
      (loadMoreMemes false out fs ui rs).rs).fetched = some fs.nextRequest := by
  cases out with
  | success payload => simp [FetchOutcome.isFail] at hF
  | httpFail =>
    refine ⟨?_, ?_, ?_, ?_, ?_, ?_, ?_, ?_⟩ <;>
      simp [loadMoreMemes, hL, hD, hN, showStatus, revealLoadMoreButton, setLoaderState,
        hideStatus, loadMore_forced_fetches]
  | netFail msg =>
    refine ⟨?_, ?_, ?_, ?_, ?_, ?_, ?_, ?_⟩ <;>
      simp [loadMoreMemes, hL, hD, hN, showStatus, revealLoadMoreButton, setLoaderState,
        hideStatus, loadMore_forced_fetches]

/-- C7 witness: a failing first fetch from the initial state. -/
theorem c7_feed_failure_keeps_cursor_witness :
    initialFeedState.loading = false ∧ initialFeedState.done = false ∧
    initialFeedState.nextRequest = some (createUrl {}) ∧
    FetchOutcome.httpFail.isFail = true ∧
    (loadMoreMemes false .httpFail initialFeedState initialUi emptyRender).fs.nextRequest
      = initialFeedState.nextRequest ∧
    (loadMoreMemes false .httpFail initialFeedState initialUi emptyRender).ui.loadMoreHidden
      = false :=
  ⟨rfl, rfl, rfl, rfl,
   (c7_feed_failure_keeps_cursor initialFeedState initialUi emptyRender .httpFail
     .httpFail (createUrl {}) rfl rfl rfl rfl).1,
   (c7_feed_failure_keeps_cursor initialFeedState initialUi emptyRender .httpFail
     .httpFail (createUrl {}) rfl rfl rfl rfl).2.2.2.2.2.1⟩

/-- A concrete voteable card environment used by the witnesses: score 5,
identifier `"abc"`, idle controls. -/
def voteEnvAbc : VoteEnv :=
  { memeState := { key := .str "abc", id := .str "abc", score := 5 },
    displayScore := 5, errorText := "", errorHidden := true,
    buttonsDisabled := false, isPending := false }

/-- C3: for every vote attempt on an idle card with a usable identifier, a
failing vote request (non-2xx or rejection) settles with the displayed score
and the CardState score equal to the pre-vote score and an inline error
shown; and in every outcome the controls end re-enabled and the pending flag
cleared. -/
theorem c3_vote_failure_rollback (env : VoteEnv) (dir : Direction) (out : FetchOutcome)
    (hP : env.isPending = false) (hB : env.buttonsDisabled = false)
    (hId : getIdentifierForRequest env.memeState ≠ .null) :
    ((handleVote dir env out).request.isSome = true → out.isFail = true →
      (handleVote dir env out).env.displayScore = env.memeState.score ∧
      (handleVote dir env out).env.memeState.score = env.memeState.score ∧
      (handleVote dir env out).env.errorHidden = false ∧
      (handleVote dir env out).env.errorText ≠ "") ∧
    (handleVote dir env out).env.buttonsDisabled = false ∧
    (handleVote dir env out).env.isPending = false := by
  by_cases ht : (getIdentifierForRequest env.memeState).toBool = true
  · cases out with
    | success payload =>
      refine ⟨fun _ h => by simp [FetchOutcome.isFail] at h, ?_, ?_⟩ <;>
        simp [handleVote, hP, ht, updateScore]
    | httpFail =>
      refine ⟨fun _ _ => ⟨?_, ?_, ?_, ?_⟩, ?_, ?_⟩ <;>
        simp [handleVote, hP, ht, updateScore]
    | netFail msg =>
      refine ⟨fun _ _ => ⟨?_, ?_, ?_, ?_⟩, ?_, ?_⟩ <;>
        simp [handleVote, hP, ht, updateScore] <;>
        by_cases hm : msg = "" <;> simp [hm]
  · have ht' : (getIdentifierForRequest env.memeState).toBool = false := by
      simpa using ht
    refine ⟨fun hreq _ => absurd hreq (by simp [handleVote, hP, ht']), ?_, ?_⟩ <;>
      simp [handleVote, hP, ht', hB]

/-- C3 witness: a simulated failing vote on a score-5 card rolls back to 5
with the error shown, controls enabled, pending cleared. -/
theorem c3_vote_failure_rollback_witness :
    voteEnvAbc.isPending = false ∧ voteEnvAbc.buttonsDisabled = false ∧
    getIdentifierForRequest voteEnvAbc.memeState ≠ .null ∧
    (handleVote .up voteEnvAbc .httpFail).request.isSome = true ∧
    FetchOutcome.httpFail.isFail = true ∧
    (handleVote .up voteEnvAbc .httpFail).env.displayScore = voteEnvAbc.memeState.score ∧
    (handleVote .up voteEnvAbc .httpFail).env.buttonsDisabled = false ∧
    (handleVote .up voteEnvAbc .httpFail).env.isPending = false :=
  ⟨rfl, rfl, by decide, by decide, rfl,
   ((c3_vote_failure_rollback voteEnvAbc .up .httpFail rfl rfl (by decide)).1
     (by decide) rfl).1,
   (c3_vote_failure_rollback voteEnvAbc .up .httpFail rfl rfl (by decide)).2.1,
   (c3_vote_failure_rollback voteEnvAbc .up .httpFail rfl rfl (by decide)).2.2⟩

/-- C4: on a successful vote, a numeric score found by
`resolveScoreFromPayload` under any of the aliased shapes overwrites the
display exactly (regardless of the optimistic delta), and a payload with no
score leaves the optimistic value (pre-vote score ± 1); the aliased shapes
resolve as the claim lists them. -/
theorem c4_server_score_override (env : VoteEnv) (dir : Direction) (p : JVal) (n : Int)
    (hP : env.isPending = false)
    (hT : (getIdentifierForRequest env.memeState).toBool = true) :
    (resolveScoreFromPayload p = .num n →
      (handleVote dir env (.success p)).env.displayScore = n ∧
      (handleVote dir env (.success p)).env.memeState.score = n) ∧
    (resolveScoreFromPayload p = .undefined →
      (handleVote dir env (.success p)).env.displayScore
        = env.memeState.score + (if dir = .up then 1 else -1) ∧
      (handleVote dir env (.success p)).env.memeState.score
        = env.memeState.score + (if dir = .up then 1 else -1)) ∧
    resolveScoreFromPayload (.num 9) = .num 9 ∧
    resolveScoreFromPayload (.obj [("score", .num 42)]) = .num 42 ∧
    resolveScoreFromPayload (.obj [("newScore", .num 5)]) = .num 5 ∧
    resolveScoreFromPayload (.obj [("updatedScore", .num 6)]) = .num 6 ∧
    resolveScoreFromPayload (.obj [("data", .obj [("score", .num 7)])]) = .num 7 ∧
    resolveScoreFromPayload (.obj [("data", .arr [.obj [("score", .num 8)]])]) = .num 8 ∧
    resolveScoreFromPayload (.obj [("meme", .obj [("score", .num 4)])]) = .num 4 ∧
    resolveScoreFromPayload (.obj []) = .undefined := by
  refine ⟨?_, ?_, by decide, by decide, by decide, by decide, by decide, by decide,
    by decide, by decide⟩
  · intro h
    constructor <;> simp [handleVote, hP, hT, h, updateScore]
  · intro h
    constructor <;> simp [handleVote, hP, hT, h, updateScore]

/-- C4 witness: `{score: 42}` forces display 42 from score 5, and `{}`
retains the optimistic 6. -/
theorem c4_server_score_override_witness :
    voteEnvAbc.isPending = false ∧
    (getIdentifierForRequest voteEnvAbc.memeState).toBool = true ∧
    resolveScoreFromPayload (.obj [("score", .num 42)]) = .num 42 ∧
    (handleVote .up voteEnvAbc (.success (.obj [("score", .num 42)]))).env.displayScore
      = 42 ∧
    resolveScoreFromPayload (.obj []) = .undefined ∧
    (handleVote .up voteEnvAbc (.success (.obj []))).env.displayScore
      = voteEnvAbc.memeState.score + (if Direction.up = Direction.up then 1 else -1) :=
  ⟨rfl, by decide, by decide,
   ((c4_server_score_override voteEnvAbc .up (.obj [("score", .num 42)]) 42 rfl
     (by decide)).1 (by decide)).1,
   by decide,
   ((c4_server_score_override voteEnvAbc .up (.obj []) 0 rfl (by decide)).2.1
     (by decide)).1⟩

/-- C8: a vote attempt on an idle card whose CardState holds no usable real
identifier — identifier `null` and a key that is `null` or a synthetic
`image:`/`url:` string — is rejected before any request: no HTTP request, no
events, the voting-unavailable message shown, and the score and CardState
left untouched. -/
theorem c8_synthetic_key_vote_rejected (env : VoteEnv) (dir : Direction)
    (out : FetchOutcome) (hP : env.isPending = false)
    (hId : env.memeState.id = .null)
    (hKey : env.memeState.key = .null ∨
      ∃ s, env.memeState.key = .str s ∧
        (startsWithJS s "image:" = true ∨ startsWithJS s "url:" = true)) :
    (handleVote dir env out).request = none ∧
    (handleVote dir env out).events = [] ∧
    (handleVote dir env out).env.errorText
      = "Voting isn\x27t available for this meme yet." ∧
    (handleVote dir env out).env.errorHidden = false ∧
    (handleVote dir env out).env.memeState = env.memeState ∧
    (handleVote dir env out).env.displayScore = env.displayScore := by
  have hnull : getIdentifierForRequest env.memeState = .null := by
    rcases hKey with hk | ⟨s, hk, hpre⟩ <;>
      · simp [getIdentifierForRequest, hId, hk, isUsableId]
        try (rcases hpre with hp | hp <;> simp [hp])
  refine ⟨?_, ?_, ?_, ?_, ?_, ?_⟩ <;> simp [handleVote, hP, hnull, JVal.toBool]

/-- A card whose only key is a synthetic image-derived one and whose
identifier is null (a record with `imageUrl` and no identity alias). -/
def voteEnvSynthetic : VoteEnv :=
  { memeState := { key := .str "image:https://cdn.example/m.png", id := .null, score := 5 },
    displayScore := 5, errorText := "", errorHidden := true,
    buttonsDisabled := false, isPending := false }

/-- C8 witness: the synthetic-key card rejects the vote with no request and
an unchanged display. -/
theorem c8_synthetic_key_vote_rejected_witness :
    voteEnvSynthetic.isPending = false ∧
    voteEnvSynthetic.memeState.id = .null ∧
    (handleVote .up voteEnvSynthetic .httpFail).request = none ∧
    (handleVote .up voteEnvSynthetic .httpFail).env.displayScore = 5 :=
  ⟨rfl, rfl,
   (c8_synthetic_key_vote_rejected voteEnvSynthetic .up .httpFail rfl rfl
     (Or.inr ⟨"image:https://cdn.example/m.png", rfl, Or.inl (by decide)⟩)).1,
   (c8_synthetic_key_vote_rejected voteEnvSynthetic .up .httpFail rfl rfl
     (Or.inr ⟨"image:https://cdn.example/m.png", rfl, Or.inl (by decide)⟩)).2.2.2.2.2⟩

/-- C10: vote-side score resolution accepts only number-typed values — a
numeric-string score such as `{score: "42"}` resolves to nothing and the
optimistic value is retained, although the feed-side `normalizeScore` parses
the same string to 42; in general the display is overwritten only when
`resolveScoreFromPayload` finds a number. -/
theorem c10_numeric_string_score_retained (env : VoteEnv) (dir : Direction)
    (hP : env.isPending = false)
    (hT : (getIdentifierForRequest env.memeState).toBool = true) :
    resolveScoreFromPayload (.obj [("score", .str "42")]) = .undefined ∧
    (handleVote dir env (.success (.obj [("score", .str "42")]))).env.displayScore
      = env.memeState.score + (if dir = .up then 1 else -1) ∧
    normalizeScore (.str "42") = 42 ∧
    (∀ p, resolveScoreFromPayload p = .undefined →
      (handleVote dir env (.success p)).env.displayScore
        = env.memeState.score + (if dir = .up then 1 else -1)) := by
  have hgen : ∀ p, resolveScoreFromPayload p = .undefined →
      (handleVote dir env (.success p)).env.displayScore
        = env.memeState.score + (if dir = .up then 1 else -1) := by
    intro p h
    simp [handleVote, hP, hT, h, updateScore]
  exact ⟨by decide, hgen _ (by decide), by decide, hgen⟩

/-- C10 witness: at the concrete card, `{score: "42"}` leaves the optimistic
6 on display. -/
theorem c10_numeric_string_score_retained_witness :
    voteEnvAbc.isPending = false ∧
    (getIdentifierForRequest voteEnvAbc.memeState).toBool = true ∧
    resolveScoreFromPayload (.obj [("score", .str "42")]) = .undefined ∧
    (handleVote .up voteEnvAbc (.success (.obj [("score", .str "42")]))).env.displayScore
      = voteEnvAbc.memeState.score + (if Direction.up = Direction.up then 1 else -1) ∧
    normalizeScore (.str "42") = 42 :=
  ⟨rfl, by decide,
   (c10_numeric_string_score_retained voteEnvAbc .up rfl (by decide)).1,
   (c10_numeric_string_score_retained voteEnvAbc .up rfl (by decide)).2.1,
   (c10_numeric_string_score_retained voteEnvAbc .up rfl (by decide)).2.2.1⟩

/-- A random-meme payload wrapping a record that has an `id` only. -/
def randomIdPayload : JVal := .obj [("meme", .obj [("id", .str "abc")])]

/-- The render state after the feed has rendered the record `{id: "abc"}`. -/
def rsWithAbc : RenderState := renderMemes [.obj [("id", .str "abc")]] emptyRender

/-- C9 counterexample: the payload `{meme: {id: "abc"}}` carries no explicit
`redirect`/`url`/`location`/`permalink`, and the record's key `"abc"` already
has a rendered card — yet the navigator performs a full navigation to the
id-derived path `/memes/abc` instead of scrolling to the existing card,
because destination resolution also accepts slug- and id-derived paths and
runs before the rendered-card check. -/
theorem c9_counterexample_id_navigates_over_scroll :
    randomIdPayload.get "redirect" = .undefined ∧
    randomIdPayload.get "url" = .undefined ∧
    randomIdPayload.get "location" = .undefined ∧
    randomIdPayload.get "permalink" = .undefined ∧
    (resolveSingleMeme randomIdPayload).get "permalink" = .undefined ∧
    (resolveSingleMeme randomIdPayload).get "url" = .undefined ∧
    rsWithAbc.renderedMemes.contains (getMemeKey (resolveSingleMeme randomIdPayload))
      = true ∧
    (findCardByKey (getMemeKey (resolveSingleMeme randomIdPayload))
      rsWithAbc.cards).isSome = true ∧
    (handleRandomMeme (.success randomIdPayload) rsWithAbc initialUi "Random").action
      = .navigated "/memes/abc" := by decide

/-- C9 (amended): the navigator resolves in priority order: any resolvable
destination — the payload's explicit redirect/url/location/permalink, or the
record's permalink, `http` url, or a `/memes/…` path derived from its slug
or id — triggers a full navigation (even when the record's card is already
rendered); otherwise, a resolved record whose key already has a rendered
card is scrolled into view with no new card and no navigation; otherwise a
new card is synthesized and prepended; and the trigger control and its label
are restored in a final step in every outcome. -/
theorem c9_random_resolution_priority (p : JVal) (rs : RenderState) (ui : PageUi)
    (lbl : String) :
    (∀ d, resolveMemeDestination p (resolveSingleMeme p) = .str d → d ≠ "" →
      (handleRandomMeme (.success p) rs ui lbl).action = .navigated d ∧
      (handleRandomMeme (.success p) rs ui lbl).rs = rs) ∧
    ((resolveMemeDestination p (resolveSingleMeme p)).toBool = false →
      (resolveSingleMeme p).toBool = true →
      (getMemeKey (resolveSingleMeme p)).toBool = true →
      rs.renderedMemes.contains (getMemeKey (resolveSingleMeme p)) = true →
      (findCardByKey (getMemeKey (resolveSingleMeme p)) rs.cards).isSome = true →
      (handleRandomMeme (.success p) rs ui lbl).action = .scrolledToExisting ∧
      (handleRandomMeme (.success p) rs ui lbl).rs = rs) ∧
    ((resolveMemeDestination p (resolveSingleMeme p)).toBool = false →
      (resolveSingleMeme p).toBool = true →
      ((getMemeKey (resolveSingleMeme p)).toBool
        && rs.renderedMemes.contains (getMemeKey (resolveSingleMeme p))
        && (findCardByKey (getMemeKey (resolveSingleMeme p)) rs.cards).isSome) = false →
      (handleRandomMeme (.success p) rs ui lbl).action = .prependedNew ∧
      (handleRandomMeme (.success p) rs ui lbl).rs.cards
        = (createMemeCard (resolveSingleMeme p) (getMemeKey (resolveSingleMeme p))
            rs.memeStates).1 :: rs.cards) ∧
    (∀ out, (handleRandomMeme out rs ui lbl).buttonDisabled = false ∧
      (handleRandomMeme out rs ui lbl).buttonLabel = lbl) := by
  refine ⟨?_, ?_, ?_, ?_⟩
  · intro d hd hne
    constructor <;> simp [handleRandomMeme, hd, JVal.toBool, JVal.toStringJS, hne]
  · intro hdest hm hk hmem hcard
    have hmem' : getMemeKey (resolveSingleMeme p) ∈ rs.renderedMemes := by
      simpa using hmem
    constructor <;> simp [handleRandomMeme, hdest, hm, hk, hmem', hcard]
  · intro hdest hm hno
    have hno' : ¬(((getMemeKey (resolveSingleMeme p)).toBool = true ∧
        getMemeKey (resolveSingleMeme p) ∈ rs.renderedMemes) ∧
        (findCardByKey (getMemeKey (resolveSingleMeme p)) rs.cards).isSome = true) := by
      rintro ⟨⟨h1, h2⟩, h3⟩
      simp [h1, h3] at hno
      exact hno h2
    constructor <;> simp [handleRandomMeme, hdest, hm, hno']
  · intro out
    cases out <;> simp [handleRandomMeme]

/-- C9 witness: the three resolution outcomes and the restored trigger at
concrete inputs — navigation for an id-bearing record, scroll for an
already-rendered uuid-keyed record, prepend for a fresh one, and the label
restored after a failing fetch. -/
theorem c9_random_resolution_priority_witness :
    (handleRandomMeme (.success randomIdPayload) emptyRender initialUi "Random").action
      = .navigated "/memes/abc" ∧
    (handleRandomMeme (.success (.obj [("meme", .obj [("uuid", .str "u7")])]))
      (renderMemes [.obj [("uuid", .str "u7")]] emptyRender) initialUi "Random").action
      = .scrolledToExisting ∧
    (handleRandomMeme (.success (.obj [("meme", .obj [("uuid", .str "u7")])]))
      emptyRender initialUi "Random").action = .prependedNew ∧
    (handleRandomMeme .httpFail emptyRender initialUi "Random").buttonDisabled = false ∧
    (handleRandomMeme .httpFail emptyRender initialUi "Random").buttonLabel = "Random" :=
  ⟨((c9_random_resolution_priority randomIdPayload emptyRender initialUi "Random").1
      "/memes/abc" (by decide) (by decide)).1,
   ((c9_random_resolution_priority (.obj [("meme", .obj [("uuid", .str "u7")])])
      (renderMemes [.obj [("uuid", .str "u7")]] emptyRender) initialUi "Random").2.1
      (by decide) (by decide) (by decide) (by decide) (by decide)).1,
   ((c9_random_resolution_priority (.obj [("meme", .obj [("uuid", .str "u7")])])
      emptyRender initialUi "Random").2.2.1 (by decide) (by decide) (by decide)).1,
   ((c9_random_resolution_priority (.obj []) emptyRender initialUi "Random").2.2.2
      .httpFail).1,
   ((c9_random_resolution_priority (.obj []) emptyRender initialUi "Random").2.2.2
      .httpFail).2⟩

/-! ## Rendered-identity invariant machinery (for the idempotent-rendering
claim) -/

/-- Two cards that agree on everything except possibly the score display. -/
def Card.sameExceptScore (a b : Card) : Prop :=
  a.memeKey = b.memeKey ∧ a.imageSrc = b.imageSrc ∧ a.textOnly = b.textOnly ∧
  a.altText = b.altText ∧ a.caption = b.caption ∧ a.errorText = b.errorText ∧
  a.errorHidden = b.errorHidden

theorem Card.sameExceptScore_refl (a : Card) : Card.sameExceptScore a a :=
  ⟨rfl, rfl, rfl, rfl, rfl, rfl, rfl⟩

theorem setCardScore_length (l : List Card) (i : Nat) (n : Int) :
    (setCardScore l i n).length = l.length := by
  induction l generalizing i with
  | nil => rfl
  | cons c rest ih =>
    cases i with
    | zero => simp [setCardScore]
    | succ j => simp [setCardScore, ih]

theorem setCardScore_memeKey (l : List Card) (i : Nat) (n : Int) :
    (setCardScore l i n).map Card.memeKey = l.map Card.memeKey := by
  induction l generalizing i with
  | nil => rfl
  | cons c rest ih =>
    cases i with
    | zero => simp [setCardScore]
    | succ j => simp [setCardScore, ih]

theorem setCardScore_sameExceptScore (l : List Card) (i : Nat) (n : Int) :
    List.Forall₂ Card.sameExceptScore l (setCardScore l i n) := by
  induction l generalizing i with
  | nil => exact List.Forall₂.nil
  | cons c rest ih =>
    cases i with
    | zero =>
      exact List.Forall₂.cons ⟨rfl, rfl, rfl, rfl, rfl, rfl, rfl⟩
        (List.forall₂_same.mpr fun x _ => Card.sameExceptScore_refl x)
    | succ j => exact List.Forall₂.cons (Card.sameExceptScore_refl c) (ih j)

theorem memeStatesGet_cons (e : JVal × MemeState) (rest : List (JVal × MemeState))
    (k : JVal) :
    memeStatesGet (e :: rest) k = if e.1 = k then some e.2 else memeStatesGet rest k := by
  by_cases he : e.1 = k <;> simp [memeStatesGet, List.find?_cons, he]

theorem memeStatesSet_keys (m : List (JVal × MemeState)) (k : JVal) (v : MemeState) :
    (memeStatesSet m k v).map Prod.fst
      = if k ∈ m.map Prod.fst then m.map Prod.fst else m.map Prod.fst ++ [k] := by
  induction m with
  | nil => simp [memeStatesSet]
  | cons e rest ih =>
    by_cases he : e.1 = k
    · simp [memeStatesSet, he]
    · by_cases hm : k ∈ rest.map Prod.fst <;>
        simp [memeStatesSet, he, ih, hm, Ne.symm he]

theorem memeStatesSet_keys_of_get (m : List (JVal × MemeState)) (k : JVal)
    (st v : MemeState) (h : memeStatesGet m k = some st) :
    (memeStatesSet m k v).map Prod.fst = m.map Prod.fst := by
  induction m with
  | nil => simp [memeStatesGet] at h
  | cons e rest ih =>
    by_cases he : e.1 = k
    · simp [memeStatesSet, he]
    · rw [memeStatesGet_cons, if_neg he] at h
      simp [memeStatesSet, he, ih h]

theorem memeStatesSet_keyId_of_get (m : List (JVal × MemeState)) (k : JVal)
    (st : MemeState) (n : Int) (h : memeStatesGet m k = some st) :
    List.Forall₂ (fun a b => a.1 = b.1 ∧ a.2.key = b.2.key ∧ a.2.id = b.2.id)
      m (memeStatesSet m k { st with score := n }) := by
  induction m with
  | nil => simp [memeStatesGet] at h
  | cons e rest ih =>
    rw [memeStatesGet_cons] at h
    by_cases he : e.1 = k
    · rw [if_pos he] at h
      have hst : st = e.2 := (Option.some.inj h).symm
      subst hst
      simp only [memeStatesSet, if_pos he]
      exact List.Forall₂.cons ⟨he, rfl, rfl⟩
        (List.forall₂_same.mpr fun x _ => ⟨rfl, rfl, rfl⟩)
    · rw [if_neg he] at h
      simp only [memeStatesSet, if_neg he]
      exact List.Forall₂.cons ⟨rfl, rfl, rfl⟩ (ih h)

/-- `filterMap` is determined by `map`. -/
theorem filterMap_congr_of_map_eq {α β : Type} (f : α → Option β) :
    ∀ {l₁ l₂ : List α}, l₁.map f = l₂.map f → l₁.filterMap f = l₂.filterMap f
  | [], [], _ => rfl
  | a :: l₁, b :: l₂, h => by
    simp only [List.map_cons, List.cons.injEq] at h
    obtain ⟨h1, h2⟩ := h
    cases hfb : f b <;>
      simp [List.filterMap_cons, h1, hfb, filterMap_congr_of_map_eq f h2]
  | [], _ :: _, h => by simp at h
  | _ :: _, [], h => by simp at h

/-- The key attribute written by `createMemeCard` on the new card. -/
theorem createMemeCard_memeKey (meme key : JVal) (states : List (JVal × MemeState)) :
    (createMemeCard meme key states).1.memeKey
      = if key.toBool then some key.toStringJS else none := by
  simp [createMemeCard]

/-- The map update performed by `createMemeCard`. -/
theorem createMemeCard_states (meme key : JVal) (states : List (JVal × MemeState)) :
    (createMemeCard meme key states).2.2
      = if key.toBool then
          memeStatesSet states key (createMemeCard meme key states).2.1
        else states := by
  simp [createMemeCard]

/-- The keyed-identity invariant of the render state: every registered key is
truthy, keys are registered once, the `data-meme-key` attributes of the grid
are exactly the string forms of the registered keys (in order), and the
`memeStates` map holds exactly the registered keys (in order). -/
def KeyedInv (rs : RenderState) : Prop :=
  (∀ k ∈ rs.renderedMemes, k.toBool = true) ∧
  rs.renderedMemes.Nodup ∧
  rs.cards.filterMap Card.memeKey = rs.renderedMemes.map JVal.toStringJS ∧
  rs.memeStates.map Prod.fst = rs.renderedMemes

/-- The same invariant over the `renderMemes` loop state, with the grid and
the detached fragment taken together. -/
def KeyedInvLoop (l : RenderLoop) : Prop :=
  (∀ k ∈ l.renderedMemes, k.toBool = true) ∧
  l.renderedMemes.Nodup ∧
  (l.grid ++ l.fragment).filterMap Card.memeKey = l.renderedMemes.map JVal.toStringJS ∧
  l.memeStates.map Prod.fst = l.renderedMemes

/-- `renderOne` in the update branch (truthy key already rendered, card in
the grid, state in the map). -/
theorem renderOne_eq_update (acc : RenderLoop) (meme : JVal) (i : Nat) (st : MemeState)
    (hk : (getMemeKey meme).toBool = true) (hmem : getMemeKey meme ∈ acc.renderedMemes)
    (hfind : findCardByKey (getMemeKey meme) acc.grid = some i)
    (hget : memeStatesGet acc.memeStates (getMemeKey meme) = some st) :
    renderOne acc meme
      = ⟨setCardScore acc.grid i (normalizeScore (meme.get "score")), acc.fragment,
          acc.renderedMemes,
          memeStatesSet acc.memeStates (getMemeKey meme)
            { st with score := normalizeScore (meme.get "score") }⟩ := by
  simp [renderOne, hk, hmem, hfind, hget]

/-- `renderOne` when the key is already rendered but its card is not in the
grid (a same-batch repeat): nothing changes. -/
theorem renderOne_eq_skip (acc : RenderLoop) (meme : JVal)
    (hk : (getMemeKey meme).toBool = true) (hmem : getMemeKey meme ∈ acc.renderedMemes)
    (hfind : findCardByKey (getMemeKey meme) acc.grid = none) :
    renderOne acc meme = ⟨acc.grid, acc.fragment, acc.renderedMemes, acc.memeStates⟩ := by
  simp [renderOne, hk, hmem, hfind]

/-- `renderOne` when the key is already rendered, the card is in the grid,
but no state is registered under the key: only the score display changes. -/
theorem renderOne_eq_update_nostate (acc : RenderLoop) (meme : JVal) (i : Nat)
    (hk : (getMemeKey meme).toBool = true) (hmem : getMemeKey meme ∈ acc.renderedMemes)
    (hfind : findCardByKey (getMemeKey meme) acc.grid = some i)
    (hget : memeStatesGet acc.memeStates (getMemeKey meme) = none) :
    renderOne acc meme
      = ⟨setCardScore acc.grid i (normalizeScore (meme.get "score")), acc.fragment,
          acc.renderedMemes, acc.memeStates⟩ := by
  simp [renderOne, hk, hmem, hfind, hget]

/-- `renderOne` in the create branch for a truthy fresh key. -/
theorem renderOne_eq_create (acc : RenderLoop) (meme : JVal)
    (hk : (getMemeKey meme).toBool = true) (hmem : getMemeKey meme ∉ acc.renderedMemes) :
    renderOne acc meme
      = ⟨acc.grid, acc.fragment ++ [(createMemeCard meme (getMemeKey meme) acc.memeStates).1],
          setAdd acc.renderedMemes (getMemeKey meme),
          (createMemeCard meme (getMemeKey meme) acc.memeStates).2.2⟩ := by
  simp [renderOne, hk, hmem]

/-- `renderOne` in the create branch for a falsy key: the card is added with
no key attribute, and neither the rendered set nor the map changes. -/
theorem renderOne_eq_create_falsy (acc : RenderLoop) (meme : JVal)
    (hk : (getMemeKey meme).toBool = false) :
    renderOne acc meme
      = ⟨acc.grid, acc.fragment ++ [(createMemeCard meme (getMemeKey meme) acc.memeStates).1],
          acc.renderedMemes, acc.memeStates⟩ := by
  simp [renderOne, hk, createMemeCard_states]

theorem renderOne_keyedInv (acc : RenderLoop) (meme : JVal)
    (h : KeyedInvLoop acc) : KeyedInvLoop (renderOne acc meme) := by
  obtain ⟨hT, hN, hC, hM⟩ := h
  by_cases hk : (getMemeKey meme).toBool = true
  · by_cases hmem : getMemeKey meme ∈ acc.renderedMemes
    · cases hfind : findCardByKey (getMemeKey meme) acc.grid with
      | some i =>
        cases hget : memeStatesGet acc.memeStates (getMemeKey meme) with
        | some st =>
          rw [renderOne_eq_update acc meme i st hk hmem hfind hget]
          refine ⟨hT, hN, ?_, ?_⟩
          · show (setCardScore acc.grid i _ ++ acc.fragment).filterMap Card.memeKey = _
            rw [List.filterMap_append] at hC ⊢
            rw [filterMap_congr_of_map_eq Card.memeKey (setCardScore_memeKey acc.grid i _)]
            exact hC
          · show (memeStatesSet acc.memeStates _ _).map Prod.fst = _
            rw [memeStatesSet_keys_of_get acc.memeStates (getMemeKey meme) st _ hget]
            exact hM
        | none =>
          rw [renderOne_eq_update_nostate acc meme i hk hmem hfind hget]
          refine ⟨hT, hN, ?_, hM⟩
          show (setCardScore acc.grid i _ ++ acc.fragment).filterMap Card.memeKey = _
          rw [List.filterMap_append] at hC ⊢
          rw [filterMap_congr_of_map_eq Card.memeKey (setCardScore_memeKey acc.grid i _)]
          exact hC
      | none =>
        rw [renderOne_eq_skip acc meme hk hmem hfind]
        exact ⟨hT, hN, hC, hM⟩
    · rw [renderOne_eq_create acc meme hk hmem]
      have hfresh : getMemeKey meme ∉ acc.memeStates.map Prod.fst := by
        rw [hM]; exact hmem
      refine ⟨?_, ?_, ?_, ?_⟩
      · intro k hk'
        rw [setAdd, if_neg hmem] at hk'
        rcases List.mem_append.mp hk' with hk' | hk'
        · exact hT k hk'
        · rw [List.mem_singleton.mp hk']; exact hk
      · rw [setAdd, if_neg hmem]
        refine List.Nodup.append hN (List.nodup_singleton _) ?_
        intro a ha hb
        rw [List.mem_singleton.mp hb] at ha
        exact hmem ha
      · show (acc.grid ++ (acc.fragment ++ [_])).filterMap Card.memeKey = _
        rw [setAdd, if_neg hmem, ← List.append_assoc, List.filterMap_append, hC,
          List.map_append, List.filterMap_cons, List.filterMap_nil,
          createMemeCard_memeKey, if_pos hk]
        rfl
      · show ((createMemeCard meme (getMemeKey meme) acc.memeStates).2.2).map Prod.fst = _
        rw [createMemeCard_states, if_pos hk, memeStatesSet_keys, if_neg hfresh, hM,
          setAdd, if_neg hmem]
  · have hk' : (getMemeKey meme).toBool = false := by
      cases hkk : (getMemeKey meme).toBool with
      | true => exact absurd hkk hk
      | false => rfl
    rw [renderOne_eq_create_falsy acc meme hk']
    refine ⟨hT, hN, ?_, ?_⟩
    · show (acc.grid ++ (acc.fragment ++ [_])).filterMap Card.memeKey = _
      rw [← List.append_assoc, List.filterMap_append, hC, List.filterMap_cons,
        List.filterMap_nil, createMemeCard_memeKey, if_neg (by simp [hk']),
        List.append_nil]
    · exact hM

theorem foldl_renderOne_keyedInv (memes : List JVal) (acc : RenderLoop)
    (h : KeyedInvLoop acc) : KeyedInvLoop (memes.foldl renderOne acc) := by
  induction memes generalizing acc with
  | nil => exact h
  | cons m rest ih => exact ih _ (renderOne_keyedInv acc m h)

theorem renderMemes_keyedInv (memes : List JVal) (rs : RenderState)
    (h : KeyedInv rs) : KeyedInv (renderMemes memes rs) := by
  obtain ⟨hT, hN, hC, hM⟩ := h
  have hloop := foldl_renderOne_keyedInv memes
    { grid := rs.cards, fragment := [], renderedMemes := rs.renderedMemes,
      memeStates := rs.memeStates } ⟨hT, hN, by simpa using hC, hM⟩
  obtain ⟨hT', hN', hC', hM'⟩ := hloop
  exact ⟨hT', hN', hC', hM'⟩

/-- The render states reachable through the feed path: the empty grid,
`renderMemes` batches, and score-refresh steps — the vote controller's
settlements (optimistic update, rollback, server override) rewrite only a
card's score/error display and a `memeState` score, so they preserve the
key attribute of every card, the rendered-key set and the map keys. -/
inductive Reaches : RenderState → Prop where
  | init : Reaches emptyRender
  | render (batch : List JVal) {rs : RenderState} :
      Reaches rs → Reaches (renderMemes batch rs)
  | scoreRefresh {rs rs' : RenderState} : Reaches rs →
      rs'.renderedMemes = rs.renderedMemes →
      rs'.cards.map Card.memeKey = rs.cards.map Card.memeKey →
      rs'.memeStates.map Prod.fst = rs.memeStates.map Prod.fst →
      Reaches rs'

theorem reaches_keyedInv {rs : RenderState} (h : Reaches rs) : KeyedInv rs := by
  induction h with
  | init => exact ⟨by simp [emptyRender], by simp [emptyRender], rfl, rfl⟩
  | render batch _ ih => exact renderMemes_keyedInv _ _ ih
  | scoreRefresh _ hs hc hm ih =>
    obtain ⟨hT, hN, hC, hM⟩ := ih
    refine ⟨?_, ?_, ?_, ?_⟩
    · intro k hk; exact hT k (hs ▸ hk)
    · exact hs ▸ hN
    · rw [filterMap_congr_of_map_eq Card.memeKey hc, hC, hs]
    · rw [hm, hM, hs]

theorem countP_memeKey_eq_count_filterMap (l : List Card) (s : String) :
    l.countP (fun c => c.memeKey == some s) = (l.filterMap Card.memeKey).count s := by
  induction l with
  | nil => rfl
  | cons c rest ih =>
    cases hc : c.memeKey with
    | none => simp [List.countP_cons, List.filterMap_cons, hc, ih]
    | some t =>
      by_cases ht : t = s <;>
        simp [List.countP_cons, List.filterMap_cons, hc, List.count_cons, ih, ht]

theorem countP_fst_eq_count_map (m : List (JVal × MemeState)) (k : JVal) :
    m.countP (fun e => e.1 == k) = (m.map Prod.fst).count k := by
  induction m with
  | nil => rfl
  | cons e rest ih =>
    by_cases he : e.1 = k <;> simp [List.countP_cons, List.count_cons, ih, he]

/-- `renderMemes` on a single record is one loop step plus reassembly. -/
theorem renderMemes_singleton (meme : JVal) (rs : RenderState) :
    renderMemes [meme] rs
      = ⟨(renderOne ⟨rs.cards, [], rs.renderedMemes, rs.memeStates⟩ meme).renderedMemes,
          (renderOne ⟨rs.cards, [], rs.renderedMemes, rs.memeStates⟩ meme).grid
            ++ (renderOne ⟨rs.cards, [], rs.renderedMemes, rs.memeStates⟩ meme).fragment,
          (renderOne ⟨rs.cards, [], rs.renderedMemes, rs.memeStates⟩ meme).memeStates⟩ :=
  rfl

/-- C1 counterexample: the record `{id: 0}` has the non-null resolved key
`0`, yet rendering it through the feed twice produces two DOM cards — the
code treats every falsy key (`0`, `""`, `false`) as missing, so such records
are never registered in the rendered-identity set and are re-created on
every occurrence.  The claim asserts this can never happen for a non-null
key. -/
theorem c1_counterexample_falsy_key_duplicates :
    getMemeKey (.obj [("id", .num 0)]) = .num 0 ∧
    (JVal.num 0) ≠ .null ∧
    (renderMemes [.obj [("id", .num 0)]] emptyRender).cards.length = 1 ∧
    (renderMemes [.obj [("id", .num 0)]]
      (renderMemes [.obj [("id", .num 0)]] emptyRender)).cards.length = 2 := by decide

/-- C1 (amended): (1) re-processing through the feed a record whose resolved
key is truthy and already registered creates no card and changes at most
score displays and stored scores — the rendered set, the card count, every
non-score card field, and the keys and identifiers of the `memeStates` map
are untouched, and when the record's card is attached to the grid exactly
that card's score display is set to the record's normalized score; (2) in
every state reachable through feed rendering and vote score refreshes whose
registered keys have pairwise distinct string forms, each registered key has
exactly one DOM card bearing its string form and exactly one `memeStates`
entry. -/
theorem c1_idempotent_rendering_and_identity :
    (∀ meme rs, (getMemeKey meme).toBool = true →
      getMemeKey meme ∈ rs.renderedMemes →
      (renderMemes [meme] rs).renderedMemes = rs.renderedMemes ∧
      (renderMemes [meme] rs).cards.length = rs.cards.length ∧
      List.Forall₂ Card.sameExceptScore rs.cards (renderMemes [meme] rs).cards ∧
      List.Forall₂ (fun a b => a.1 = b.1 ∧ a.2.key = b.2.key ∧ a.2.id = b.2.id)
        rs.memeStates (renderMemes [meme] rs).memeStates ∧
      (∀ i, findCardByKey (getMemeKey meme) rs.cards = some i →
        (renderMemes [meme] rs).cards
          = setCardScore rs.cards i (normalizeScore (meme.get "score")))) ∧
    (∀ rs, Reaches rs →
      rs.renderedMemes.Pairwise (fun a b => a.toStringJS ≠ b.toStringJS) →
      ∀ k ∈ rs.renderedMemes,
        rs.cards.countP (fun c => c.memeKey == some k.toStringJS) = 1 ∧
        rs.memeStates.countP (fun e => e.1 == k) = 1) := by
  constructor
  · intro meme rs hk hmem
    rw [renderMemes_singleton]
    cases hfind : findCardByKey (getMemeKey meme)
        (⟨rs.cards, [], rs.renderedMemes, rs.memeStates⟩ : RenderLoop).grid with
    | some i =>
      cases hget : memeStatesGet
          (⟨rs.cards, [], rs.renderedMemes, rs.memeStates⟩ : RenderLoop).memeStates
          (getMemeKey meme) with
      | some st =>
        rw [renderOne_eq_update _ meme i st hk hmem hfind hget]
        refine ⟨rfl, ?_, ?_, ?_, ?_⟩
        · show (setCardScore rs.cards i _ ++ []).length = _
          rw [List.append_nil, setCardScore_length]
        · show List.Forall₂ _ rs.cards (setCardScore rs.cards i _ ++ [])
          rw [List.append_nil]
          exact setCardScore_sameExceptScore rs.cards i _
        · exact memeStatesSet_keyId_of_get rs.memeStates (getMemeKey meme) st _ hget
        · intro i' hi'
          have : i = i' := Option.some.inj (hfind ▸ hi')
          subst this
          show setCardScore rs.cards i _ ++ [] = _
          rw [List.append_nil]
      | none =>
        rw [renderOne_eq_update_nostate _ meme i hk hmem hfind hget]
        refine ⟨rfl, ?_, ?_, ?_, ?_⟩
        · show (setCardScore rs.cards i _ ++ []).length = _
          rw [List.append_nil, setCardScore_length]
        · show List.Forall₂ _ rs.cards (setCardScore rs.cards i _ ++ [])
          rw [List.append_nil]
          exact setCardScore_sameExceptScore rs.cards i _
        · exact List.forall₂_same.mpr fun x _ => ⟨rfl, rfl, rfl⟩
        · intro i' hi'
          have : i = i' := Option.some.inj (hfind ▸ hi')
          subst this
          show setCardScore rs.cards i _ ++ [] = _
          rw [List.append_nil]
    | none =>
      rw [renderOne_eq_skip _ meme hk hmem hfind]
      refine ⟨rfl, ?_, ?_, ?_, ?_⟩
      · show (rs.cards ++ []).length = _
        rw [List.append_nil]
      · show List.Forall₂ _ rs.cards (rs.cards ++ [])
        rw [List.append_nil]
        exact List.forall₂_same.mpr fun x _ => Card.sameExceptScore_refl x
      · exact List.forall₂_same.mpr fun x _ => ⟨rfl, rfl, rfl⟩
      · intro i' hi'
        exact absurd hi' (by simp)
  · intro rs hre hdist k hk
    obtain ⟨hT, hN, hC, hM⟩ := reaches_keyedInv hre
    constructor
    · rw [countP_memeKey_eq_count_filterMap, hC]
      have hnd : (rs.renderedMemes.map JVal.toStringJS).Nodup :=
        hdist.map JVal.toStringJS (fun a b h => h)
      exact List.count_eq_one_of_mem hnd (List.mem_map_of_mem JVal.toStringJS hk)
    · rw [countP_fst_eq_count_map, hM]
      exact List.count_eq_one_of_mem hN hk

/-- A first-page record and a later-page copy of it with a changed score. -/
def wMemeFirst : JVal := .obj [("id", .str "w1"), ("score", .num 1)]
def wMemeAgain : JVal := .obj [("id", .str "w1"), ("score", .num 5)]
def wRsFirst : RenderState := renderMemes [wMemeFirst] emptyRender

/-- C1 witness: re-rendering the same record keeps one card and one state
entry, and the reachable one-card state satisfies the identity invariant. -/
theorem c1_idempotent_rendering_and_identity_witness :
    (getMemeKey wMemeAgain).toBool = true ∧
    getMemeKey wMemeAgain ∈ wRsFirst.renderedMemes ∧
    (renderMemes [wMemeAgain] wRsFirst).cards.length = wRsFirst.cards.length ∧
    (renderMemes [wMemeAgain] wRsFirst).renderedMemes = wRsFirst.renderedMemes ∧
    wRsFirst.renderedMemes.Pairwise (fun a b => a.toStringJS ≠ b.toStringJS) ∧
    (JVal.str "w1") ∈ wRsFirst.renderedMemes ∧
    wRsFirst.cards.countP (fun c => c.memeKey == some (JVal.str "w1").toStringJS) = 1 ∧
    wRsFirst.memeStates.countP (fun e => e.1 == JVal.str "w1") = 1 :=
  ⟨by decide, by decide,
   ((c1_idempotent_rendering_and_identity.1 wMemeAgain wRsFirst (by decide)
      (by decide)).2.1),
   ((c1_idempotent_rendering_and_identity.1 wMemeAgain wRsFirst (by decide)
      (by decide)).1),
   by decide, by decide,
   (c1_idempotent_rendering_and_identity.2 wRsFirst
      (Reaches.render [wMemeFirst] Reaches.init) (by decide) (.str "w1") (by decide)).1,
   (c1_idempotent_rendering_and_identity.2 wRsFirst
      (Reaches.render [wMemeFirst] Reaches.init) (by decide) (.str "w1") (by decide)).2⟩

end MemeFeed
